import Mathlib

/-!
Shallow embedding of the NSPG fine-tuning notebook (src/Fine-Tune.ipynb).

The notebook is a linear configuration pipeline: it loads a JSON dataset,
builds a 4-bit quantization configuration, loads a base causal-LM model and
its tokenizer, builds a LoRA adapter configuration and training arguments,
constructs an SFT trainer from them, trains, and saves the final adapter and
tokenizer.  Each cell is embedded below as a Lean definition; behaviour of
the external libraries that the notebook delegates to (peft adapter
attachment, trainer example preparation, save_pretrained) is modelled from
the specification where the claims depend on it, and each such definition is
marked in its doc comment.
-/

namespace NSPG

/-- A training example: a JSON record carrying a `text` field
(src cell `load_dataset('json', ...)`; spec section 3). -/
structure Record where
  text : String
deriving DecidableEq

/-- Field lookup on a record, as the trainer does with `dataset_text_field`. -/
def Record.getField (r : Record) (f : String) : Option String :=
  if f = "text" then some r.text else none

/-- `BitsAndBytesConfig` as constructed in the notebook: enable flag,
quantization type tag, compute precision tag, double-quantization flag. -/
structure BitsAndBytesConfig where
  load_in_4bit : Bool
  bnb_4bit_quant_type : String
  bnb_4bit_compute_dtype : String
  bnb_4bit_use_double_quant : Bool
deriving DecidableEq

/-- `LoraConfig` as constructed in the notebook. -/
structure LoraConfig where
  lora_alpha : Nat
  lora_dropout : ℚ
  target_modules : List String
  r : Nat
  bias : String
  task_type : String
deriving DecidableEq

/-- `TrainingArguments` as constructed in the notebook. -/
structure TrainingArguments where
  output_dir : String
  num_train_epochs : Nat
  per_device_train_batch_size : Nat
  auto_find_batch_size : Bool
  gradient_accumulation_steps : Nat
  optim : String
  logging_steps : Nat
  save_steps : Nat
  learning_rate : ℚ
  weight_decay : ℚ
  fp16 : Bool
  bf16 : Bool
  max_grad_norm : ℚ
  max_steps : Int
  warmup_ratio : ℚ
  group_by_length : Bool
  lr_scheduler_type : String
  report_to : String
deriving DecidableEq

/-- The mutable part of the loaded model's configuration that the notebook
touches (`model.config.use_cache`, `model.config.pretraining_tp`). -/
structure ModelConfig where
  use_cache : Bool
  pretraining_tp : Nat
deriving DecidableEq

/-- The in-memory model handle: identifier, the quantization configuration it
was loaded under, device map, and its config object. -/
structure Model where
  name : String
  quantization_config : BitsAndBytesConfig
  device_map : String
  config : ModelConfig
deriving DecidableEq

/-- The tokenizer handle: identifier, the `trust_remote_code` flag it was
loaded with, its end-of-sequence token, padding token and padding side.
The end-of-sequence token is a property of the external base model, so the
loader is parametric in it. -/
structure Tokenizer where
  name : String
  trust_remote_code : Bool
  eos_token : String
  pad_token : String
  padding_side : String
deriving DecidableEq

/-- The `SFTTrainer` construction: the six pipeline inputs plus the literal
keyword arguments of the call. -/
structure SFTTrainer where
  model : Model
  train_dataset : List Record
  peft_config : LoraConfig
  dataset_text_field : String
  max_seq_length : Nat
  tokenizer : Tokenizer
  args : TrainingArguments
  packing : Bool
deriving DecidableEq

/-! ### The notebook's cells, in order -/

/-- Cell 2: the base model identifier. -/
def base_model : String := "deepseek-ai/deepseek-coder-6.7b-instruct"

/-- Cell 2: the name of the directory for the fine-tuned adapter. -/
def new_model : String := "DeepSeek-6-7b-instruct-Verilog-caseif-V4-256-QKV"

/-- Cell 3: the dataset load.  The JSON file is external input, so the load
is parametric in the records it yields. -/
def load_dataset (records : List Record) : List Record := records

/-- Cell 5: `compute_dtype = getattr(torch, "float16")`. -/
def compute_dtype : String := "float16"

/-- Cell 5: the quantization configuration, built once from literals. -/
def quant_config : BitsAndBytesConfig :=
  { load_in_4bit := true
    bnb_4bit_quant_type := "nf4"
    bnb_4bit_compute_dtype := compute_dtype
    bnb_4bit_use_double_quant := true }

/-- Cell 6: `AutoModelForCausalLM.from_pretrained(base_model,
quantization_config=quant_config, device_map='auto')`.  The freshly loaded
model has the transformers default `use_cache=True`. -/
def fromPretrainedModel (nm : String) (qc : BitsAndBytesConfig) : Model :=
  { name := nm
    quantization_config := qc
    device_map := "auto"
    config := { use_cache := true, pretraining_tp := 1 } }

/-- Cell 6 continued: the model after `model.config.use_cache = False` and
`model.config.pretraining_tp = 1`. -/
def model : Model :=
  let m := fromPretrainedModel base_model quant_config
  { m with config := { m.config with use_cache := false, pretraining_tp := 1 } }

/-- Cell 7: `AutoTokenizer.from_pretrained(base_model,
trust_remote_code=True)`, parametric in the external end-of-sequence token;
the default padding token and side before the notebook's assignments. -/
def fromPretrainedTokenizer (nm : String) (trust : Bool) (eos : String) : Tokenizer :=
  { name := nm
    trust_remote_code := trust
    eos_token := eos
    pad_token := ""
    padding_side := "left" }

/-- Cell 7 continued: the tokenizer after `tokenizer.pad_token =
tokenizer.eos_token` and `tokenizer.padding_side = "right"`. -/
def tokenizer (eos : String) : Tokenizer :=
  let t := fromPretrainedTokenizer base_model true eos
  { t with pad_token := t.eos_token, padding_side := "right" }

/-- Cell 8: `target_modules = ['q_proj','k_proj','v_proj']`. -/
def target_modules : List String := ["q_proj", "k_proj", "v_proj"]

/-- Cell 8: the LoRA adapter configuration. -/
def peft_params : LoraConfig :=
  { lora_alpha := 256
    lora_dropout := 1/10
    target_modules := target_modules
    r := 256
    bias := "none"
    task_type := "CAUSAL_LM" }

/-- Cell 9: the training arguments. -/
def training_params : TrainingArguments :=
  { output_dir := "./Trained_models"
    num_train_epochs := 1
    per_device_train_batch_size := 5
    auto_find_batch_size := false
    gradient_accumulation_steps := 1
    optim := "paged_adamw_32bit"
    logging_steps := 5
    save_steps := 54486
    learning_rate := 3/10000
    weight_decay := 1/1000
    fp16 := false
    bf16 := true
    max_grad_norm := 3/10
    max_steps := -1
    warmup_ratio := 3/100
    group_by_length := true
    lr_scheduler_type := "constant"
    report_to := "tensorboard" }

/-- Cell 10: the `SFTTrainer` construction, parametric in the external
dataset records and the base model's end-of-sequence token. -/
def trainer (records : List Record) (eos : String) : SFTTrainer :=
  { model := model
    train_dataset := load_dataset records
    peft_config := peft_params
    dataset_text_field := "text"
    max_seq_length := 2048
    tokenizer := tokenizer eos
    args := training_params
    packing := false }

/-! ### Adapter attachment and the training step (modelled from the spec) -/

/-- A named model parameter: the module it belongs to, whether it is a
low-rank adapter matrix (as opposed to a base weight), whether it is
trainable, and its value (abstracted to an integer). -/
structure Param where
  module : String
  adapter : Bool
  trainable : Bool
  weight : Int
deriving DecidableEq

/-- The identifying signature of a parameter, everything except its value. -/
def Param.sig (p : Param) : String × Bool × Bool := (p.module, p.adapter, p.trainable)

/-- Modelled from the spec: adapter attachment (peft, invoked by the SFT
trainer through `peft_config`) "freezes all base weights; introduces
trainable low-rank matrices at each named target". -/
def attachAdapters (cfg : LoraConfig) (base : List Param) : List Param :=
  (base.map fun p => { p with trainable := false }) ++
    (cfg.target_modules.map fun m =>
      { module := m, adapter := true, trainable := true, weight := 0 })

/-- Modelled from the spec: one optimizer step of the trainer loop
backpropagates "only into adapter parameters": it may replace the value of
each trainable parameter (`upd` stands for the externally computed update)
and leaves frozen parameters, and every trainable flag, unchanged. -/
def trainStep (upd : Param → Int) (ps : List Param) : List Param :=
  ps.map fun p => if p.trainable then { p with weight := upd p } else p

/-! ### Trainer example preparation (modelled from the spec) -/

/-- Modelled from the spec: the SFT trainer's example preparation.  Each
record's designated text field is tokenized (`encode` stands for the
external tokenizer); with `packing` disabled every record yields one
training sequence, truncated at `max_seq_length` tokens; with `packing`
enabled the token streams are concatenated and cut into
`max_seq_length`-sized chunks. -/
def prepareTrainingSequences (encode : String → List Nat) (t : SFTTrainer) :
    List (List Nat) :=
  let texts := t.train_dataset.map fun r => (r.getField t.dataset_text_field).getD ""
  if t.packing then
    List.toChunks t.max_seq_length (texts.map encode).flatten
  else
    texts.map fun s => (encode s).take t.max_seq_length

/-! ### Saving the run artifact (modelled from the spec) -/

/-- The kind of file an explicit save call writes. -/
inductive ArtifactKind where
  | adapterWeights
  | tokenizerFiles
deriving DecidableEq

/-- A file written by a save call: the directory it lands in and its kind. -/
structure SavedFile where
  dir : String
  kind : ArtifactKind
deriving DecidableEq

/-- Modelled from the spec: `trainer.model.save_pretrained(d)` persists the
final adapter weights file into directory `d`. -/
def modelSavePretrained (d : String) : List SavedFile :=
  [{ dir := d, kind := ArtifactKind.adapterWeights }]

/-- Modelled from the spec: `trainer.tokenizer.save_pretrained(d)` persists
the tokenizer files into directory `d`. -/
def tokenizerSavePretrained (d : String) : List SavedFile :=
  [{ dir := d, kind := ArtifactKind.tokenizerFiles }]

/-- Cell 12: the files written by the two final save calls, both into
`new_model`. -/
def finalSaveOutputs : List SavedFile :=
  modelSavePretrained new_model ++ tokenizerSavePretrained new_model

/-! ### The notebook's control flow -/

/-- The successive operations of the notebook, one constructor per
consequential statement, in the roles the spec names. -/
inductive Step where
  | setAllocConf
  | defineNames
  | loadDataset
  | buildQuantConfig
  | loadModel
  | loadTokenizer
  | buildAdapterConfig
  | buildTrainingConfig
  | buildTrainer
  | runTrain
  | saveFinal
deriving DecidableEq

/-- The notebook's cells execute top to bottom; this is the order of its
consequential statements (cells 1 through 12 of src/Fine-Tune.ipynb). -/
def notebookSteps : List Step :=
  [Step.setAllocConf, Step.defineNames, Step.loadDataset, Step.buildQuantConfig,
   Step.loadModel, Step.loadTokenizer, Step.buildAdapterConfig,
   Step.buildTrainingConfig, Step.buildTrainer, Step.runTrain, Step.saveFinal]

/-- Position of the first occurrence of a step in a step list. -/
def idx (s : Step) : List Step → Nat
  | [] => 0
  | t :: ts => if t = s then 0 else idx s ts + 1

/-! ### The allocator environment variable -/

/-- Cell 1: the value assigned to `PYTORCH_CUDA_ALLOC_CONF`. -/
def allocConfValue : String := "max_split_size_mb:512"

/-- Effect of one step on the `PYTORCH_CUDA_ALLOC_CONF` environment
variable: only the first cell's assignment touches it. -/
def applyStep (e : Option String) (s : Step) : Option String :=
  if s = Step.setAllocConf then some allocConfValue else e

/-- The value of the environment variable before each step and after the
last one: entry `i` is its value once the first `i` steps have run. -/
def envScan : Option String → List Step → List (Option String)
  | e, [] => [e]
  | e, s :: ts => e :: envScan (applyStep e s) ts

/-- The environment variable's value at the point a given step runs,
starting from an unset variable. -/
def envBefore (s : Step) : Option String :=
  (notebookSteps.takeWhile fun t => t ≠ s).foldl applyStep none

/-! ### Helper lemmas -/

lemma filter_trainable_freeze (base : List Param) :
    ((base.map fun p => { p with trainable := false }).filter fun p => p.trainable)
      = [] := by
  induction base with
  | nil => rfl
  | cons p ps ih => simp [List.filter_cons, ih]

lemma trainStep_filter_sig (upd : Param → Int) (ps : List Param) :
    (((trainStep upd ps).filter fun p => p.trainable).map Param.sig)
      = ((ps.filter fun p => p.trainable).map Param.sig) := by
  induction ps with
  | nil => rfl
  | cons p ps ih =>
    by_cases h : p.trainable = true <;>
      simp [trainStep, List.filter_cons, Param.sig, h] at ih ⊢ <;>
      simpa [trainStep] using ih

lemma trainStep_all_flag (upd : Param → Int) (ps : List Param)
    (f : String × Bool × Bool → Bool) :
    ((trainStep upd ps).all fun p => f p.sig) = (ps.all fun p => f p.sig) := by
  induction ps with
  | nil => rfl
  | cons p ps ih =>
    by_cases h : p.trainable = true <;>
      simp [trainStep, Param.sig, h] at ih ⊢ <;>
      rw [ih]

/-! ### The claims -/

/-- Claim C1: the configuration objects handed to the SFT trainer are the
declared literal objects, with adapter rank 256, learning rate 3e-4 and one
training epoch. -/
theorem trainer_config_literals (records : List Record) (eos : String) :
    (trainer records eos).peft_config = peft_params
    ∧ (trainer records eos).args = training_params
    ∧ peft_params.r = 256
    ∧ training_params.learning_rate = 3/10000
    ∧ training_params.num_train_epochs = 1 :=
  ⟨rfl, rfl, rfl, rfl, rfl⟩

/-- Claim C2: after adapter attachment, and still after any number of
optimizer steps, the trainable parameters are exactly the low-rank adapter
matrices at q_proj, k_proj and v_proj, and every non-adapter (base)
parameter is frozen. -/
theorem lora_trainable_subset (base : List Param) (upd : Param → Int) :
    (((trainStep upd (attachAdapters peft_params base)).filter fun p =>
        p.trainable).map Param.sig)
      = [("q_proj", true, true), ("k_proj", true, true), ("v_proj", true, true)]
    ∧ ((trainStep upd (attachAdapters peft_params base)).all fun p =>
        p.adapter || ! p.trainable) = true := by
  constructor
  · rw [trainStep_filter_sig]
    simp [attachAdapters, List.filter_append, filter_trainable_freeze,
      peft_params, target_modules, Param.sig]
  · have h : ((attachAdapters peft_params base).all fun p =>
        p.adapter || ! p.trainable) = true := by
      simp only [attachAdapters, List.all_append, List.all_map, Bool.and_eq_true]
      refine ⟨?_, by simp [peft_params, target_modules]⟩
      induction base with
      | nil => rfl
      | cons p ps ih => simp [ih]
    have h2 := trainStep_all_flag upd (attachAdapters peft_params base)
      (fun s => s.2.1 || ! s.2.2)
    simpa [Param.sig, h] using h2

/-- Claim C3: with packing disabled, example preparation turns each dataset
record into exactly one training sequence, the tokenization of its text
field truncated at 2048 tokens. -/
theorem sft_examples_unpacked_truncated (records : List Record) (eos : String)
    (encode : String → List Nat) :
    (trainer records eos).packing = false
    ∧ (trainer records eos).max_seq_length = 2048
    ∧ prepareTrainingSequences encode (trainer records eos)
        = records.map fun r => (encode r.text).take 2048 := by
  refine ⟨rfl, rfl, ?_⟩
  simp [prepareTrainingSequences, trainer, load_dataset, Record.getField]

/-- Claim C4: after loading, the model's cache flag is cleared, and the
tokenizer's padding token is aliased to its end-of-sequence token with
right-side padding. -/
theorem model_cache_tokenizer_padding (eos : String) :
    model.config.use_cache = false
    ∧ (tokenizer eos).pad_token = (tokenizer eos).eos_token
    ∧ (tokenizer eos).padding_side = "right" :=
  ⟨rfl, rfl, rfl⟩

/-- Claim C5: the quantization configuration enables 4-bit loading with
quantization type nf4, compute precision float16 and double quantization,
and the configuration held by the loaded model (and by the trainer's model)
is that literal configuration, unchanged. -/
theorem quant_config_literals (records : List Record) (eos : String) :
    quant_config.load_in_4bit = true
    ∧ quant_config.bnb_4bit_quant_type = "nf4"
    ∧ quant_config.bnb_4bit_compute_dtype = "float16"
    ∧ quant_config.bnb_4bit_use_double_quant = true
    ∧ model.quantization_config = quant_config
    ∧ (trainer records eos).model.quantization_config = quant_config :=
  ⟨rfl, rfl, rfl, rfl, rfl, rfl⟩

/-- Claim C6: the notebook's steps run in the order dataset load,
quantization config, model load, tokenizer load, adapter config, training
config, trainer construction, train, save; each of the trainer's six inputs
is built before the trainer, and the final save follows training. -/
theorem pipeline_sequential_order :
    idx Step.loadDataset notebookSteps < idx Step.buildQuantConfig notebookSteps
    ∧ idx Step.buildQuantConfig notebookSteps < idx Step.loadModel notebookSteps
    ∧ idx Step.loadModel notebookSteps < idx Step.loadTokenizer notebookSteps
    ∧ idx Step.loadTokenizer notebookSteps < idx Step.buildAdapterConfig notebookSteps
    ∧ idx Step.buildAdapterConfig notebookSteps < idx Step.buildTrainingConfig notebookSteps
    ∧ idx Step.buildTrainingConfig notebookSteps < idx Step.buildTrainer notebookSteps
    ∧ idx Step.loadDataset notebookSteps < idx Step.buildTrainer notebookSteps
    ∧ idx Step.buildQuantConfig notebookSteps < idx Step.buildTrainer notebookSteps
    ∧ idx Step.loadModel notebookSteps < idx Step.buildTrainer notebookSteps
    ∧ idx Step.loadTokenizer notebookSteps < idx Step.buildTrainer notebookSteps
    ∧ idx Step.buildAdapterConfig notebookSteps < idx Step.buildTrainer notebookSteps
    ∧ idx Step.buildTrainer notebookSteps < idx Step.runTrain notebookSteps
    ∧ idx Step.runTrain notebookSteps < idx Step.saveFinal notebookSteps := by
  decide

/-- Claim C7: the final save calls write the adapter weights file and the
tokenizer files into the named new_model directory, which is distinct from
the root training-output directory ./Trained_models. -/
theorem final_save_layout :
    new_model ≠ training_params.output_dir
    ∧ ({ dir := new_model, kind := ArtifactKind.adapterWeights } : SavedFile)
        ∈ finalSaveOutputs
    ∧ ({ dir := new_model, kind := ArtifactKind.tokenizerFiles } : SavedFile)
        ∈ finalSaveOutputs
    ∧ (finalSaveOutputs.all fun f => f.dir == new_model) = true := by
  decide

/-- Claim C8: the allocator environment variable is assigned the exact value
max_split_size_mb:512 before the model-load step, and keeps that value at
every later point of the run. -/
theorem alloc_conf_before_model_load :
    envBefore Step.loadModel = some "max_split_size_mb:512"
    ∧ idx Step.setAllocConf notebookSteps < idx Step.loadModel notebookSteps
    ∧ (((envScan none notebookSteps).drop 1).all
        fun e => e == some allocConfValue) = true := by
  decide

/-- Claim C9: the tokenizer is loaded with trust_remote_code set to true. -/
theorem tokenizer_trust_remote_code (eos : String) :
    (tokenizer eos).trust_remote_code = true :=
  rfl

/-- Claim C10: the adapter scaling factor lora_alpha equals the adapter rank
r, so the effective scaling ratio lora_alpha / r is 1. -/
theorem lora_alpha_eq_rank :
    peft_params.lora_alpha = peft_params.r
    ∧ ((peft_params.lora_alpha : ℚ) / (peft_params.r : ℚ)) = 1 := by
  refine ⟨rfl, ?_⟩
  norm_num [peft_params]

end NSPG
